import Mathlib

/-!
Shallow embedding of `src/src/main.cpp` (ESP32 remote-monitoring firmware).

Floating-point sensor values are modelled as `Option ℚ`: `none` stands for
the NaN sentinel, `some q` for an ordinary value; NaN-propagating float
arithmetic is modelled by `fadd`/`fmulC`/`fdivC`. Side effects (serial
prints, MQTT publishes and subscribes, pin writes, delays) are modelled as
an explicit trace of `Event`s. Blocking waits whose termination depends on
the environment (WiFi association, the MQTT reconnect loop) take a fuel
argument and return `none` when they have not yet terminated.
-/

namespace ESP32

/-- Float model: `none` is the NaN sentinel, `some q` an ordinary value. -/
abbrev F := Option ℚ

/-- NaN-propagating addition (`NaN + x = NaN`). -/
def fadd : F → F → F
  | some a, some b => some (a + b)
  | _, _ => none

/-- NaN-propagating multiplication by a constant. -/
def fmulC (x : F) (c : ℚ) : F := x.map (· * c)

/-- NaN-propagating division by a (nonzero) constant. -/
def fdivC (x : F) (c : ℚ) : F := x.map (· / c)

/-- Constants from the `#define` block of `main.cpp`. -/
def NUMERO_MUESTRAS : Nat := 10

def DELAY_ENTRE_MUESTRAS : Nat := 50

def DELAY_ENTRE_SENSORES : Nat := 200

def TIEMPO_RECONEXION : Nat := 5000

def PIN_TRIGGER_ULTRASONICO : Nat := 18

def PIN_ECHO_ULTRASONICO : Nat := 16

def PIN_LED_INDICADOR : Nat := 2

/-- Observable effects of the firmware, in program order. -/
inductive Event where
  | serial (line : String)
  | publish (topic payload : String)
  | subscribe (topic : String)
  | digitalWrite (pin : Nat) (high : Bool)
  | delayMs (ms : Nat)
  | delayUs (us : Nat)
  | mqttLoop
  | checkMQTTConnected (result : Bool)
  | connectAttempt (attempt : Nat) (ok : Bool)
  | wifiBegin
  | checkWiFiStatus (result : Bool)
  | pulseIn (pin : Nat)
  | requestTemperatures
  deriving Repr, DecidableEq

/-- Publishes (topic, payload) of a trace, in order. -/
def pubs (es : List Event) : List (String × String) :=
  es.filterMap fun e =>
    match e with
    | .publish t p => some (t, p)
    | _ => none

/-- Topics published by a trace, in order. -/
def pubTopics (es : List Event) : List String := (pubs es).map Prod.fst

/-- Subscriptions of a trace, in order. -/
def subsOf (es : List Event) : List String :=
  es.filterMap fun e =>
    match e with
    | .subscribe t => some t
    | _ => none

/-- Serial lines of a trace, in order. -/
def serialsOf (es : List Event) : List String :=
  es.filterMap fun e =>
    match e with
    | .serial s => some s
    | _ => none

/-- Millisecond delays of a trace, in order. -/
def delaysOf (es : List Event) : List Nat :=
  es.filterMap fun e =>
    match e with
    | .delayMs n => some n
    | _ => none

/-- Pin writes of a trace, in order. -/
def writesOf (es : List Event) : List (Nat × Bool) :=
  es.filterMap fun e =>
    match e with
    | .digitalWrite p b => some (p, b)
    | _ => none

/-- Is the event a WiFi-level operation (association or status poll)? -/
def isWifiEvent : Event → Bool
  | .wifiBegin => true
  | .checkWiFiStatus _ => true
  | _ => false

/-- Is the event an MQTT session-connect attempt? -/
def isConnectAttempt : Event → Bool
  | .connectAttempt _ _ => true
  | _ => false

/-- Is the event a publish? -/
def isPublish : Event → Bool
  | .publish _ _ => true
  | _ => false

/-- Two-digit zero-padded decimal string. -/
def pad2 (n : Nat) : String := if n < 10 then "0" ++ toString n else toString n

/-- Model of `sprintf("%.2f", q)`: round to two decimals and print. -/
def fmt2 (q : ℚ) : String :=
  let n : ℤ := round (q * 100)
  (if n < 0 then "-" else "") ++ toString (n.natAbs / 100) ++ "." ++ pad2 (n.natAbs % 100)

/-- `%.2f` applied to a possibly-NaN float. -/
def fmtF : F → String
  | none => "nan"
  | some q => fmt2 q

/-! ## callbackMQTT (main.cpp lines 134-163) -/

/-- C-string contents of a byte buffer: the bytes before the first 0. -/
def cstr (bs : List Nat) : List Nat := bs.takeWhile (· ≠ 0)

/-- The bytes of the literal "true" (74 72 75 65 hex). -/
def trueBytes : List Nat := [116, 114, 117, 101]

/-- The bytes of the literal "false". -/
def falseBytes : List Nat := [102, 97, 108, 115, 101]

/-- `char bufferMensaje[length + 1]` with `unsigned int length`: the array
size expression is computed in 32-bit unsigned arithmetic. -/
def bufferSize (length : Nat) : Nat := (length + 1) % 2 ^ 32

/-- The buffer the callback fills: the payload bytes, then a 0 terminator
(`memcpy` of `length` bytes followed by `bufferMensaje[length] = 0`). -/
def bufferMensaje (payload : List Nat) : List Nat := payload ++ [0]

/-- Serial lines printed at the top of the callback. -/
def callbackPre (topic : String) : List Event :=
  [.serial ("Mensaje recibido en topico: " ++ topic), .serial "Payload: "]

/-- `callbackMQTT(topic, payload, length)` acting on the LED state:
returns the event trace and the new LED state. -/
def callbackMQTT (topic : String) (payload : List Nat) (led : Bool) :
    List Event × Bool :=
  let buffer := bufferMensaje payload
  if cstr buffer = trueBytes then
    (callbackPre topic ++
      [.digitalWrite PIN_LED_INDICADOR true,
       .serial "-> LED encendido - Comando true recibido"], true)
  else if cstr buffer = falseBytes then
    (callbackPre topic ++
      [.digitalWrite PIN_LED_INDICADOR false,
       .delayMs 5000,
       .serial "-> LED apagado - Comando false recibido"], false)
  else
    (callbackPre topic ++
      [.serial "-> Payload no reconocido - Comando ignorado"], led)

/-! ## Sensor environment and the sample averagers -/

/-- Per-pass sensor inputs: the ten readings each stream delivers during one
sampling pass, and the result the MQTT client reports for each publish. -/
structure SensorEnv where
  dur : Fin 10 → F
  hum1 : Fin 10 → Option ℚ
  temp1 : Fin 10 → Option ℚ
  hum2 : Fin 10 → Option ℚ
  temp2 : Fin 10 → Option ℚ
  ow : Fin 10 → Option ℚ
  pubOk : String → Bool

/-- The accumulation loop shared by the DHT and the OneWire readers:
each sample is added to the running total only when it is not NaN
(`if (!isnan(x)) total += x`), starting from `0.0`. -/
def acumular (s : Fin 10 → Option ℚ) : ℚ :=
  (List.finRange 10).foldl
    (fun total i =>
      match s i with
      | some v => total + v
      | none => total) 0

/-- `total / NUMERO_MUESTRAS`: the average always divides by 10,
whatever number of samples was valid. -/
def promedio (s : Fin 10 → Option ℚ) : ℚ := acumular s / 10

/-- Sum of the valid (non-NaN) samples of a stream. -/
def sumValid (s : Fin 10 → Option ℚ) : ℚ := ∑ i, (s i).getD 0

/-- Number of invalid (NaN) samples of a stream. -/
def numInvalid (s : Fin 10 → Option ℚ) : Nat :=
  ((List.finRange 10).filter fun i => s i = none).length

/-! ## leerDistanciaYPublicar (main.cpp lines 320-362) -/

/-- `(duracion * 0.0343) / 2`: echo duration to distance in cm. -/
def distancia (d : F) : F := fdivC (fmulC d (343 / 10000)) 2

/-- Pin and timing effects of one ultrasonic sample (trigger pulse, echo
measurement, inter-sample delay). -/
def distSampleEvents : List Event :=
  [.digitalWrite PIN_TRIGGER_ULTRASONICO false, .delayUs 5,
   .digitalWrite PIN_TRIGGER_ULTRASONICO true, .delayUs 25,
   .digitalWrite PIN_TRIGGER_ULTRASONICO false,
   .pulseIn PIN_ECHO_ULTRASONICO, .delayMs DELAY_ENTRE_MUESTRAS]

/-- `distanciaTotal`: every converted sample is added unconditionally
(`distanciaTotal += distancia`, no isnan check in this reader). -/
def distanciaTotal (env : SensorEnv) : F :=
  (List.finRange 10).foldl (fun total i => fadd total (distancia (env.dur i))) (some 0)

/-- `distanciaTotal / NUMERO_MUESTRAS`. -/
def distanciaPromedio (env : SensorEnv) : F := fdivC (distanciaTotal env) 10

/-- Full trace of `leerDistanciaYPublicar`. -/
def leerDistanciaYPublicar (env : SensorEnv) : List Event :=
  List.flatten (List.replicate 10 distSampleEvents) ++
    [.publish "EIE_SEDE1_http/numeric" (fmtF (distanciaPromedio env))] ++
    (if env.pubOk "EIE_SEDE1_http/numeric" then
      [.serial ("-> Distancia publicada: " ++ fmtF (distanciaPromedio env) ++ " cm")]
    else
      [.serial "-> Error publicando distancia"])

/-! ## leerTemperaturaYHumedad (main.cpp lines 374-430) -/

/-- Full trace of `leerTemperaturaYHumedad`: ten sampling iterations (delay
first, then the four reads, accumulating only non-NaN values), then four
publishes whose results are not checked, then an unconditional summary. -/
def leerTemperaturaYHumedad (env : SensorEnv) : List Event :=
  List.flatten (List.replicate 10 [Event.delayMs DELAY_ENTRE_MUESTRAS]) ++
    [.publish "EIE_SEDE1_http/temp" (fmt2 (promedio env.temp1)),
     .publish "EIE_SEDE1_http/humidity" (fmt2 (promedio env.hum1)),
     .publish "EIE_SEDE2_http/temp" (fmt2 (promedio env.temp2)),
     .publish "EIE_SEDE2_http/humidity" (fmt2 (promedio env.hum2)),
     .serial "-> Datos DHT publicados:",
     .serial ("  * Sede 1 - Temp: " ++ fmt2 (promedio env.temp1) ++
       " C, Hum: " ++ fmt2 (promedio env.hum1) ++ "%"),
     .serial ("  * Sede 2 - Temp: " ++ fmt2 (promedio env.temp2) ++
       " C, Hum: " ++ fmt2 (promedio env.hum2) ++ "%")]

/-! ## leerTemperaturaOneWire (main.cpp lines 440-473) -/

/-- Full trace of `leerTemperaturaOneWire`. -/
def leerTemperaturaOneWire (env : SensorEnv) : List Event :=
  List.flatten (List.replicate 10 [Event.requestTemperatures, Event.delayMs DELAY_ENTRE_MUESTRAS]) ++
    [.publish "EIE_SEDE1_modbus/1/holding/0" (fmt2 (promedio env.ow))] ++
    (if env.pubOk "EIE_SEDE1_modbus/1/holding/0" then
      [.serial ("-> Temperatura OneWire publicada: " ++ fmt2 (promedio env.ow) ++ " C")]
    else
      [.serial "-> Error publicando temperatura OneWire"])

/-! ## reconectarMQTT (main.cpp lines 262-308) -/

/-- Environment of the reconnect loop: the result of the n-th
`clienteMQTT.connect` attempt, the `clienteMQTT.state()` code observed
after a failed attempt, and the result of `subscribe`. -/
structure MQTTEnv where
  connectOk : Nat → Bool
  stateCode : Nat → Int
  subOk : Bool

/-- The eight startup test publishes, with their surrounding serial lines. -/
def testPublishes : List Event :=
  [.serial "Publicando mensajes de prueba HTTP:",
   .publish "EIE_SEDE1_http/alphanumeric" "Sistema ESP32 operativo",
   .publish "EIE_SEDE2_http/numeric" "123.45",
   .publish "EIE_SEDE2_http/int" "123",
   .publish "EIE_SEDE2_http/boolean" "true",
   .publish "EIE_SEDE2_http/ejemploJSON"
     "\x7b\"sistema\":\"ESP32\",\"estado\":\"operativo\",\"timestamp\":1234567890\x7d",
   .serial "Publicando mensajes de prueba Modbus:",
   .publish "EIE_SEDE2_modbus/1/string/8" "Test desde ESP32",
   .publish "EIE_SEDE2_modbus/1/holding/0" "123.45",
   .publish "EIE_SEDE2_modbus/1/input/0" "123",
   .serial "-> Mensajes de prueba publicados"]

/-- The trace of a successful connect attempt `k`: subscribe to the
command topic, then publish the startup test messages. -/
def successEvents (env : MQTTEnv) (k : Nat) : List Event :=
  [.serial "Intentando conexion MQTT... ",
   .connectAttempt k true,
   .serial "-> Conectado exitosamente",
   .subscribe "EIE_SEDE1_modbus/1/coil/0"] ++
    (if env.subOk then [Event.serial "-> Suscrito a topico de control"] else []) ++
    testPublishes

/-- The trace of a failed connect attempt `k`: report the failure code,
then `delay(TIEMPO_RECONEXION)`. -/
def failEvents (env : MQTTEnv) (k : Nat) : List Event :=
  [.serial "Intentando conexion MQTT... ",
   .connectAttempt k false,
   .serial ("-> Error de conexion, codigo: " ++ toString (env.stateCode k) ++
     " - Reintentando en 5 segundos..."),
   .delayMs TIEMPO_RECONEXION]

/-- The `while (!clienteMQTT.connected())` retry loop, starting from
attempt `k`, with `fuel` remaining iterations: `none` means the loop is
still running after `fuel` attempts. -/
def reconectarLoop (env : MQTTEnv) : Nat → Nat → Option (List Event)
  | 0, _ => none
  | fuel + 1, k =>
    if env.connectOk k then some (successEvents env k)
    else (reconectarLoop env fuel (k + 1)).map (failEvents env k ++ ·)

/-- `reconectarMQTT()`: header line, then the retry loop from attempt 0. -/
def reconectarMQTT (env : MQTTEnv) (fuel : Nat) : Option (List Event) :=
  (reconectarLoop env fuel 0).map (Event.serial "RECONECTANDO AL SERVIDOR MQTT" :: ·)

/-! ## configurarWiFi (main.cpp lines 174-218) -/

/-- The `while (WiFi.status() != WL_CONNECTED)` poll loop: `status k` is
whether the k-th poll sees the association established. -/
def esperarWiFi (status : Nat → Bool) : Nat → Nat → Option (List Event)
  | 0, _ => none
  | fuel + 1, k =>
    if status k then some [Event.checkWiFiStatus true]
    else (esperarWiFi status fuel (k + 1)).map
      ([Event.checkWiFiStatus false, Event.delayMs 500, Event.serial "."] ++ ·)

/-- `configurarWiFi()`: begin association, poll until associated. -/
def configurarWiFi (status : Nat → Bool) (fuel : Nat) : Option (List Event) :=
  (esperarWiFi status fuel 0).map fun w =>
    [Event.serial "CONFIGURANDO CONEXION WiFi", Event.wifiBegin] ++ w ++
      [Event.serial "-> WiFi conectado exitosamente"]

/-! ## loop (main.cpp lines 530-553) -/

/-- Environment of one main-loop iteration: whether
`clienteMQTT.connected()` holds at the top, the reconnect environment
used when it does not, and the sensor inputs of this pass. -/
structure LoopEnv where
  mqttConnected : Bool
  mqtt : MQTTEnv
  sensors : SensorEnv

/-- One iteration of `loop()`: liveness check, reconnect if needed,
drain inbound messages, then the three sensor steps with inter-step
delays. `none` when the reconnect loop has not terminated within `fuel`. -/
def loopIter (env : LoopEnv) (fuel : Nat) : Option (List Event) :=
  (if env.mqttConnected then some [] else reconectarMQTT env.mqtt fuel).map fun recon =>
    [Event.checkMQTTConnected env.mqttConnected] ++ recon ++ [Event.mqttLoop] ++
      leerDistanciaYPublicar env.sensors ++ [Event.delayMs DELAY_ENTRE_SENSORES] ++
      leerTemperaturaYHumedad env.sensors ++ [Event.delayMs DELAY_ENTRE_SENSORES] ++
      leerTemperaturaOneWire env.sensors ++ [Event.delayMs DELAY_ENTRE_SENSORES] ++
      [Event.delayMs DELAY_ENTRE_SENSORES]

/-! ## Helper lemmas -/

/-- The C-string contents of the null-terminated buffer are the payload
bytes before the first embedded 0. -/
lemma cstr_bufferMensaje (payload : List Nat) :
    cstr (bufferMensaje payload) = cstr payload := by
  induction payload with
  | nil => rfl
  | cons a as ih =>
    have ih' : cstr (as ++ [0]) = cstr as := ih
    by_cases h : a = 0
    · subst h
      rfl
    · have h1 : cstr ((a :: as) ++ [0]) = a :: cstr (as ++ [0]) := by
        simp [cstr, List.takeWhile_cons, h]
      have h2 : cstr (a :: as) = a :: cstr as := by
        simp [cstr, List.takeWhile_cons, h]
      show cstr ((a :: as) ++ [0]) = cstr (a :: as)
      rw [h1, h2, ih']

/-- Shared helper: a payload whose C-string contents differ from both
literals leaves the LED state, pin writes and delays untouched. -/
lemma callbackMQTT_unrecognized (topic : String) (payload : List Nat) (led : Bool)
    (h1 : cstr (bufferMensaje payload) ≠ trueBytes)
    (h2 : cstr (bufferMensaje payload) ≠ falseBytes) :
    callbackMQTT topic payload led =
      (callbackPre topic ++ [.serial "-> Payload no reconocido - Comando ignorado"], led) ∧
    (callbackMQTT topic payload led).2 = led ∧
    writesOf (callbackMQTT topic payload led).1 = [] ∧
    delaysOf (callbackMQTT topic payload led).1 = [] := by
  have heq : callbackMQTT topic payload led =
      (callbackPre topic ++ [.serial "-> Payload no reconocido - Comando ignorado"], led) := by
    unfold callbackMQTT
    simp only [if_neg h1, if_neg h2]
  refine ⟨heq, by rw [heq], by rw [heq]; simp [writesOf, callbackPre],
    by rw [heq]; simp [delaysOf, callbackPre]⟩

/-! ## C10 -/

/-- C10: the callback computes the buffer size as length + 1 in unsigned
32-bit arithmetic. For every payload length strictly below 2^32 - 1 the
buffer holds exactly the payload bytes followed by a null terminator and
the terminator index is in bounds; for length = 2^32 - 1 the size wraps
to 0 and the null-terminator write at index length is out of bounds. -/
theorem c10_bufferSize_wraps_at_uint32_max :
    (∀ len : Nat, len < 2 ^ 32 - 1 →
      bufferSize len = len + 1 ∧ len < bufferSize len) ∧
    (∀ payload : List Nat, payload.length < 2 ^ 32 - 1 →
      bufferMensaje payload = payload ++ [0] ∧
      (bufferMensaje payload).length = bufferSize payload.length) ∧
    (bufferSize (2 ^ 32 - 1) = 0 ∧ ¬ 2 ^ 32 - 1 < bufferSize (2 ^ 32 - 1)) := by
  refine ⟨fun len h => ?_, fun payload h => ⟨rfl, ?_⟩, ?_, ?_⟩
  · simp only [bufferSize]
    omega
  · simp only [bufferSize, bufferMensaje, List.length_append, List.length_cons,
      List.length_nil]
    omega
  · simp only [bufferSize]
    omega
  · simp only [bufferSize]
    omega

/-- Witness for C10 at length 4 and the payload [1, 2, 3]. -/
theorem c10_witness :
    (bufferSize 4 = 4 + 1 ∧ 4 < bufferSize 4) ∧
    bufferMensaje [1, 2, 3] = [1, 2, 3] ++ [0] ∧
    (bufferMensaje [1, 2, 3]).length = bufferSize ([1, 2, 3] : List Nat).length :=
  ⟨c10_bufferSize_wraps_at_uint32_max.1 4 (by norm_num),
   c10_bufferSize_wraps_at_uint32_max.2.1 [1, 2, 3] (by norm_num)⟩

/-! ## C9 -/

/-- C9: the callback copies the payload into a buffer of size
payload length + 1, null-terminates it, and recognizes a command only by
C-string comparison of that buffer against the two literals "true" and
"false"; a payload whose buffer is string-equal to neither literal causes
no state change (no pin write, no delay, LED state returned unchanged). -/
theorem c9_recognition_by_strcmp_only (topic : String) (payload : List Nat) (led : Bool) :
    (bufferMensaje payload).length = payload.length + 1 ∧
    bufferMensaje payload = payload ++ [0] ∧
    (cstr (bufferMensaje payload) ≠ trueBytes →
      cstr (bufferMensaje payload) ≠ falseBytes →
      callbackMQTT topic payload led =
        (callbackPre topic ++ [.serial "-> Payload no reconocido - Comando ignorado"], led) ∧
      (callbackMQTT topic payload led).2 = led ∧
      writesOf (callbackMQTT topic payload led).1 = [] ∧
      delaysOf (callbackMQTT topic payload led).1 = []) := by
  exact ⟨by simp [bufferMensaje], rfl,
    fun h1 h2 => callbackMQTT_unrecognized topic payload led h1 h2⟩

/-- Witness for C9 at the payload "hi" ([104, 105]). -/
theorem c9_witness :
    (bufferMensaje [104, 105]).length = [104, 105].length + 1 ∧
    callbackMQTT "topic" [104, 105] true =
      (callbackPre "topic" ++ [.serial "-> Payload no reconocido - Comando ignorado"], true) :=
  ⟨(c9_recognition_by_strcmp_only "topic" [104, 105] true).1,
   ((c9_recognition_by_strcmp_only "topic" [104, 105] true).2.2
     (by decide) (by decide)).1⟩

/-! ## C2 -/

/-- C2 counterexample: the payload bytes 74 72 75 65 00 (hex) are not the
payload "true" (bytes 74 72 75 65), yet the handler sets the indicator
output high, because strcmp stops at the embedded null terminator. So
"leaves the indicator state unchanged for any other payload" fails. -/
theorem c2_counterexample :
    ([116, 114, 117, 101, 0] : List Nat) ≠ trueBytes ∧
    (callbackMQTT "EIE_SEDE1_modbus/1/coil/0" [116, 114, 117, 101, 0] false).2 = true ∧
    writesOf (callbackMQTT "EIE_SEDE1_modbus/1/coil/0" [116, 114, 117, 101, 0] false).1 =
      [(PIN_LED_INDICADOR, true)] := by
  refine ⟨by decide, by decide, by decide⟩

/-- C2 amended: commands are recognized by the C-string contents of the
payload (the bytes before the first null). When those bytes are "true" the
handler sets the indicator high and returns with no delay; when they are
"false" it sets the indicator low and then blocks 5000 ms before
returning; otherwise (e.g. payload "maybe") the indicator state and trace
contain no pin write and no delay. -/
theorem c2_command_handler_behavior (topic : String) (payload : List Nat) (led : Bool) :
    (cstr payload = trueBytes →
      callbackMQTT topic payload led =
        (callbackPre topic ++
          [.digitalWrite PIN_LED_INDICADOR true,
           .serial "-> LED encendido - Comando true recibido"], true) ∧
      delaysOf (callbackMQTT topic payload led).1 = []) ∧
    (cstr payload = falseBytes →
      callbackMQTT topic payload led =
        (callbackPre topic ++
          [.digitalWrite PIN_LED_INDICADOR false,
           .delayMs 5000,
           .serial "-> LED apagado - Comando false recibido"], false)) ∧
    (cstr payload ≠ trueBytes → cstr payload ≠ falseBytes →
      (callbackMQTT topic payload led).2 = led ∧
      writesOf (callbackMQTT topic payload led).1 = [] ∧
      delaysOf (callbackMQTT topic payload led).1 = []) := by
  refine ⟨fun h => ?_, fun h => ?_, fun h1 h2 => ?_⟩
  · have h' : cstr (bufferMensaje payload) = trueBytes := by rwa [cstr_bufferMensaje]
    have heq : callbackMQTT topic payload led =
        (callbackPre topic ++
          [.digitalWrite PIN_LED_INDICADOR true,
           .serial "-> LED encendido - Comando true recibido"], true) := by
      unfold callbackMQTT
      simp only [if_pos h']
    exact ⟨heq, by rw [heq]; simp [delaysOf, callbackPre]⟩
  · have h' : cstr (bufferMensaje payload) = falseBytes := by rwa [cstr_bufferMensaje]
    have hne : cstr (bufferMensaje payload) ≠ trueBytes := by
      rw [h']
      decide
    unfold callbackMQTT
    simp only [if_neg hne, if_pos h']
  · have h1b : cstr (bufferMensaje payload) ≠ trueBytes := by rwa [cstr_bufferMensaje]
    have h2b : cstr (bufferMensaje payload) ≠ falseBytes := by rwa [cstr_bufferMensaje]
    exact (callbackMQTT_unrecognized topic payload led h1b h2b).2

/-- Witness for C2 at the payloads "false" and "maybe". -/
theorem c2_witness :
    callbackMQTT "t" falseBytes true =
      (callbackPre "t" ++
        [.digitalWrite PIN_LED_INDICADOR false,
         .delayMs 5000,
         .serial "-> LED apagado - Comando false recibido"], false) ∧
    (callbackMQTT "t" [109, 97, 121, 98, 101] true).2 = true :=
  ⟨(c2_command_handler_behavior "t" falseBytes true).2.1 (by decide),
   ((c2_command_handler_behavior "t" [109, 97, 121, 98, 101] true).2.2
     (by decide) (by decide)).1⟩

/-- The validity-filtered accumulation is the sum of the valid samples. -/
lemma acumular_eq_sumValid (s : Fin 10 → Option ℚ) : acumular s = sumValid s := by
  have key : ∀ (l : List (Fin 10)) (init : ℚ),
      l.foldl
        (fun total i =>
          match s i with
          | some v => total + v
          | none => total) init
        = init + (l.map fun i => (s i).getD 0).sum := by
    intro l
    induction l with
    | nil => intro init; simp
    | cons a l ih =>
      intro init
      rw [List.foldl_cons, ih]
      have hstep :
          (match s a with
           | some v => init + v
           | none => init) = init + (s a).getD 0 := by
        cases s a <;> simp
      rw [hstep, List.map_cons, List.sum_cons, add_assoc]
  rw [acumular, key, sumValid, Fin.sum_univ_def, zero_add]

/-- Sample stream with five valid samples of value 6 and five NaN samples. -/
def exMixedStream : Fin 10 → Option ℚ := fun i => if i.val < 5 then some 6 else none

/-- Sample stream where every sample is NaN. -/
def exAllInvalid : Fin 10 → Option ℚ := fun _ => none

/-- Sample stream where every sample is valid with value 20. -/
def exAllValid : Fin 10 → Option ℚ := fun _ => some 20

/-! ## C1 -/

/-- C1: the sampling average accumulates only valid (non-NaN) samples but
always divides by N = 10, so it equals sum(valid)/N — not
sum(valid)/(N-k), from which it differs on the five-invalid example
stream — and when all N samples are invalid it is 0. -/
theorem c1_average_divides_by_N_not_valid_count :
    (∀ s : Fin 10 → Option ℚ, promedio s = sumValid s / 10) ∧
    (∀ s : Fin 10 → Option ℚ, (∀ i, s i = none) → promedio s = 0) ∧
    promedio exMixedStream = sumValid exMixedStream / 10 ∧
    promedio exMixedStream ≠ sumValid exMixedStream / (10 - (numInvalid exMixedStream : ℚ)) := by
  have havg : ∀ s : Fin 10 → Option ℚ, promedio s = sumValid s / 10 := by
    intro s
    rw [promedio, acumular_eq_sumValid]
  refine ⟨havg, fun s h => ?_, havg exMixedStream, ?_⟩
  · rw [havg]
    have : sumValid s = 0 := by
      simp [sumValid, h]
    rw [this]
    norm_num
  · rw [havg]
    have hsum : sumValid exMixedStream = 30 := by
      simp [sumValid, exMixedStream, Fin.sum_univ_def, List.finRange]
      norm_num
    have hinv : numInvalid exMixedStream = 5 := by
      simp [numInvalid, exMixedStream, List.finRange]
    rw [hsum, hinv]
    norm_num

/-- Witness for C1 at the all-invalid and the mixed example streams. -/
theorem c1_witness :
    promedio exAllInvalid = 0 ∧ promedio exMixedStream = sumValid exMixedStream / 10 :=
  ⟨c1_average_divides_by_N_not_valid_count.2.1 exAllInvalid (fun _ => rfl),
   c1_average_divides_by_N_not_valid_count.1 exMixedStream⟩

/-- `pubs` distributes over trace concatenation. -/
lemma pubs_append (l1 l2 : List Event) : pubs (l1 ++ l2) = pubs l1 ++ pubs l2 := by
  simp [pubs, List.filterMap_append]

/-- `serialsOf` distributes over trace concatenation. -/
lemma serialsOf_append (l1 l2 : List Event) :
    serialsOf (l1 ++ l2) = serialsOf l1 ++ serialsOf l2 := by
  simp [serialsOf, List.filterMap_append]

/-- `subsOf` distributes over trace concatenation. -/
lemma subsOf_append (l1 l2 : List Event) :
    subsOf (l1 ++ l2) = subsOf l1 ++ subsOf l2 := by
  simp [subsOf, List.filterMap_append]

/-- The publishes of the distance reader: exactly one, to
EIE_SEDE1_http/numeric, carrying the formatted average. -/
lemma pubs_leerDistancia (env : SensorEnv) :
    pubs (leerDistanciaYPublicar env) =
      [("EIE_SEDE1_http/numeric", fmtF (distanciaPromedio env))] := by
  have hsamples : pubs (List.flatten (List.replicate 10 distSampleEvents)) = [] := by decide
  unfold leerDistanciaYPublicar
  rw [pubs_append, pubs_append, hsamples]
  cases h : env.pubOk "EIE_SEDE1_http/numeric" <;> simp [pubs]

/-- With every duration valid, the unconditional accumulation computes
the sum of the converted samples. -/
lemma distanciaTotal_all_valid (env : SensorEnv) (h : ∀ i, env.dur i ≠ none) :
    distanciaTotal env = some (∑ i, (env.dur i).getD 0 * (343 / 10000) / 2) := by
  have hconv : ∀ i, distancia (env.dur i) = some ((env.dur i).getD 0 * (343 / 10000) / 2) := by
    intro i
    cases hc : env.dur i with
    | none => exact absurd hc (h i)
    | some q => simp [distancia, fmulC, fdivC, hc]
  have key : ∀ (l : List (Fin 10)) (init : ℚ),
      l.foldl (fun total i => fadd total (distancia (env.dur i))) (some init)
        = some (init + (l.map fun i => (env.dur i).getD 0 * (343 / 10000) / 2).sum) := by
    intro l
    induction l with
    | nil => intro init; simp
    | cons a l ih =>
      intro init
      simp only [List.foldl_cons]
      rw [hconv a]
      have hstep : fadd (some init) (some ((env.dur a).getD 0 * (343 / 10000) / 2)) =
          some (init + (env.dur a).getD 0 * (343 / 10000) / 2) := rfl
      rw [hstep, ih, List.map_cons, List.sum_cons, add_assoc]
  rw [distanciaTotal, key, Fin.sum_univ_def, zero_add]

/-- With every duration valid, the published average is the mean of the
ten converted samples. -/
lemma distanciaPromedio_all_valid (env : SensorEnv) (h : ∀ i, env.dur i ≠ none) :
    distanciaPromedio env = some ((∑ i, (env.dur i).getD 0 * (343 / 10000) / 2) / 10) := by
  rw [distanciaPromedio, distanciaTotal_all_valid env h]
  simp [fdivC]

/-- Modelled from the claim wording: the distance average with per-sample
validity filtering before accumulation (invalid samples skipped), to be
compared with the source behavior `distanciaPromedio`. -/
def distanciaPromedioFiltrado (env : SensorEnv) : ℚ :=
  promedio fun i => distancia (env.dur i)

/-- Distance environment whose first echo sample is invalid (NaN). -/
def exDistEnv : SensorEnv :=
  { dur := fun i => if i.val = 0 then none else some 100,
    hum1 := fun _ => some 50, temp1 := fun _ => some 20,
    hum2 := fun _ => some 50, temp2 := fun _ => some 20,
    ow := fun _ => some 21, pubOk := fun _ => true }

/-- Distance environment with all ten echo durations 100 µs. -/
def exDistAllValid : SensorEnv :=
  { dur := fun _ => some 100,
    hum1 := fun _ => some 50, temp1 := fun _ => some 20,
    hum2 := fun _ => some 50, temp2 := fun _ => some 20,
    ow := fun _ => some 21, pubOk := fun _ => true }

/-! ## C4 -/

/-- C4 counterexample: the distance reader applies no per-sample validity
filtering — an invalid sample is accumulated and poisons the whole
average (published payload "nan"), instead of being excluded as the
claimed filtering would do. -/
theorem c4_counterexample :
    distanciaPromedio exDistEnv = none ∧
    some (distanciaPromedioFiltrado exDistEnv) ≠ distanciaPromedio exDistEnv ∧
    pubs (leerDistanciaYPublicar exDistEnv) = [("EIE_SEDE1_http/numeric", "nan")] := by
  refine ⟨by decide, by decide, by decide⟩

/-- C4 amended: each of the ten sampled durations is converted to
duration * 0.0343 / 2 and the 2-decimal formatted average of all ten
converted samples is published to EIE_SEDE1_http/numeric; no per-sample
validity filtering is applied (every sample is accumulated
unconditionally), so when every duration is valid the published value is
the mean of the ten conversions. -/
theorem c4_distance_publish_no_filtering (env : SensorEnv) (h : ∀ i, env.dur i ≠ none) :
    distanciaPromedio env = some ((∑ i, (env.dur i).getD 0 * (343 / 10000) / 2) / 10) ∧
    pubs (leerDistanciaYPublicar env) =
      [("EIE_SEDE1_http/numeric", fmtF (distanciaPromedio env))] ∧
    pubTopics (leerDistanciaYPublicar env) = ["EIE_SEDE1_http/numeric"] :=
  ⟨distanciaPromedio_all_valid env h, pubs_leerDistancia env,
   by rw [pubTopics, pubs_leerDistancia]; simp⟩

/-- Witness for C4 on the all-valid duration stream. -/
theorem c4_witness :
    distanciaPromedio exDistAllValid =
      some ((∑ i, (exDistAllValid.dur i).getD 0 * (343 / 10000) / 2) / 10) ∧
    pubTopics (leerDistanciaYPublicar exDistAllValid) = ["EIE_SEDE1_http/numeric"] := by
  have h : ∀ i : Fin 10, exDistAllValid.dur i ≠ none := by
    intro i
    simp [exDistAllValid]
  exact ⟨(c4_distance_publish_no_filtering exDistAllValid h).1,
    (c4_distance_publish_no_filtering exDistAllValid h).2.2⟩

/-! ## C3 -/

/-- C3: the reconnect loop never terminates while every connect attempt
fails (and reaches no error state — it just keeps retrying), it returns
only when some attempt succeeds, and when the first success is attempt n
the trace is exactly n failure blocks — each reporting the failure code
and ending with the fixed 5000 ms sleep — followed by the success
events. -/
theorem c3_reconnect_retries_until_success :
    (∀ env : MQTTEnv, (∀ n, env.connectOk n = false) →
      ∀ fuel k, reconectarLoop env fuel k = none) ∧
    (∀ (env : MQTTEnv) (fuel k : Nat) (tr : List Event),
      reconectarLoop env fuel k = some tr → ∃ m, env.connectOk m = true) ∧
    (∀ (env : MQTTEnv) (n k extra : Nat),
      (∀ m, m < n → env.connectOk (k + m) = false) → env.connectOk (k + n) = true →
      reconectarLoop env (n + 1 + extra) k =
        some (((List.range n).map fun m => failEvents env (k + m)).flatten ++
          successEvents env (k + n))) ∧
    (∀ (env : MQTTEnv) (k : Nat),
      (failEvents env k).getLast? = some (.delayMs TIEMPO_RECONEXION) ∧
      Event.serial ("-> Error de conexion, codigo: " ++ toString (env.stateCode k) ++
        " - Reintentando en 5 segundos...") ∈ failEvents env k) := by
  refine ⟨?_, ?_, ?_, ?_⟩
  · intro env h fuel
    induction fuel with
    | zero => intro k; rfl
    | succ fuel ih =>
      intro k
      simp [reconectarLoop, h k, ih (k + 1)]
  · intro env fuel
    induction fuel with
    | zero =>
      intro k tr h
      exact absurd h (by simp [reconectarLoop])
    | succ fuel ih =>
      intro k tr h
      by_cases hc : env.connectOk k = true
      · exact ⟨k, hc⟩
      · rw [reconectarLoop, if_neg hc] at h
        obtain ⟨a, ha, -⟩ := Option.map_eq_some'.mp h
        exact ih (k + 1) a ha
  · intro env n
    induction n with
    | zero =>
      intro k extra hfail hsucc
      have he : 0 + 1 + extra = extra + 1 := by omega
      have hsucc' : env.connectOk k = true := by simpa using hsucc
      rw [he, reconectarLoop, if_pos hsucc']
      simp
    | succ n ih =>
      intro k extra hfail hsucc
      have h0 : ¬ env.connectOk k = true := by
        have := hfail 0 (Nat.succ_pos n)
        simp only [Nat.add_zero] at this
        simp [this]
      have he : n + 1 + 1 + extra = n + 1 + extra + 1 := by omega
      rw [he, reconectarLoop, if_neg h0]
      have ihh := ih (k + 1) extra
        (fun m hm => by
          have := hfail (m + 1) (by omega)
          simpa [Nat.add_comm, Nat.add_assoc, Nat.add_left_comm] using this)
        (by
          have : k + 1 + n = k + (n + 1) := by omega
          rw [this]
          exact hsucc)
      rw [ihh, Option.map_some']
      congr 1
      rw [List.range_succ_eq_map, List.map_cons, List.map_map]
      have hmap : (List.range n).map ((fun m => failEvents env (k + m)) ∘ Nat.succ) =
          (List.range n).map fun m => failEvents env (k + 1 + m) := by
        refine List.map_congr_left fun m _ => ?_
        have : k + Nat.succ m = k + 1 + m := by omega
        simp [Function.comp, this]
      rw [hmap]
      have harg : k + 1 + n = k + (n + 1) := by omega
      simp [List.append_assoc, harg]
  · intro env k
    exact ⟨rfl, by simp [failEvents]⟩

/-- Reconnect environment whose attempts 0 and 1 fail and attempt 2
succeeds. -/
def exMQTTEnvFail2 : MQTTEnv :=
  { connectOk := fun n => n == 2, stateCode := fun _ => -2, subOk := true }

/-- Witness for C3: with the first success at attempt 2 the loop returns
the two failure blocks followed by the success events. -/
theorem c3_witness :
    reconectarLoop exMQTTEnvFail2 (2 + 1 + 1) 0 =
      some (((List.range 2).map fun m => failEvents exMQTTEnvFail2 (0 + m)).flatten ++
        successEvents exMQTTEnvFail2 (0 + 2)) :=
  c3_reconnect_retries_until_success.2.2.1 exMQTTEnvFail2 2 0 1
    (fun m hm => by interval_cases m <;> rfl) (by rfl)

/-! ## C6 -/

/-- C6: on a successful connect attempt the routine first subscribes to
EIE_SEDE1_modbus/1/coil/0 — the only subscription, with no publish before
it — and then publishes exactly the five HTTP test messages and the three
EIE_SEDE2_modbus test messages before returning. -/
theorem c6_subscribe_then_test_publishes (env : MQTTEnv) (k fuel : Nat)
    (h : env.connectOk k = true) :
    reconectarLoop env (fuel + 1) k = some (successEvents env k) ∧
    subsOf (successEvents env k) = ["EIE_SEDE1_modbus/1/coil/0"] ∧
    (∃ l1 l2, successEvents env k = l1 ++ Event.subscribe "EIE_SEDE1_modbus/1/coil/0" :: l2 ∧
      pubs l1 = [] ∧
      pubs l2 =
        [("EIE_SEDE1_http/alphanumeric", "Sistema ESP32 operativo"),
         ("EIE_SEDE2_http/numeric", "123.45"),
         ("EIE_SEDE2_http/int", "123"),
         ("EIE_SEDE2_http/boolean", "true"),
         ("EIE_SEDE2_http/ejemploJSON",
          "\x7b\"sistema\":\"ESP32\",\"estado\":\"operativo\",\"timestamp\":1234567890\x7d"),
         ("EIE_SEDE2_modbus/1/string/8", "Test desde ESP32"),
         ("EIE_SEDE2_modbus/1/holding/0", "123.45"),
         ("EIE_SEDE2_modbus/1/input/0", "123")]) := by
  refine ⟨by rw [reconectarLoop, if_pos h], ?_, ?_⟩
  · cases hs : env.subOk <;> simp [subsOf, successEvents, testPublishes, hs]
  · refine ⟨[.serial "Intentando conexion MQTT... ", .connectAttempt k true,
      .serial "-> Conectado exitosamente"],
      (if env.subOk then [Event.serial "-> Suscrito a topico de control"] else []) ++
        testPublishes, ?_, by simp [pubs], ?_⟩
    · cases hs : env.subOk <;> simp [successEvents, hs]
    · cases hs : env.subOk <;> simp [pubs_append, hs] <;> simp [pubs, testPublishes]

/-- Witness for C6 at an environment whose attempt 0 succeeds. -/
theorem c6_witness :
    reconectarLoop exMQTTEnvFail2 (0 + 1) 2 = some (successEvents exMQTTEnvFail2 2) ∧
    subsOf (successEvents exMQTTEnvFail2 2) = ["EIE_SEDE1_modbus/1/coil/0"] :=
  ⟨(c6_subscribe_then_test_publishes exMQTTEnvFail2 2 0 (by rfl)).1,
   (c6_subscribe_then_test_publishes exMQTTEnvFail2 2 0 (by rfl)).2.1⟩

/-- Publishes of the DHT reader: the four site channels, in order. -/
lemma pubs_leerTemperaturaYHumedad (env : SensorEnv) :
    pubs (leerTemperaturaYHumedad env) =
      [("EIE_SEDE1_http/temp", fmt2 (promedio env.temp1)),
       ("EIE_SEDE1_http/humidity", fmt2 (promedio env.hum1)),
       ("EIE_SEDE2_http/temp", fmt2 (promedio env.temp2)),
       ("EIE_SEDE2_http/humidity", fmt2 (promedio env.hum2))] := by
  have hsamples :
      pubs (List.flatten (List.replicate 10 [Event.delayMs DELAY_ENTRE_MUESTRAS])) = [] := by
    decide
  unfold leerTemperaturaYHumedad
  rw [pubs_append, hsamples]
  simp [pubs]

/-- Publishes of the OneWire reader: one, to EIE_SEDE1_modbus/1/holding/0. -/
lemma pubs_leerTemperaturaOneWire (env : SensorEnv) :
    pubs (leerTemperaturaOneWire env) =
      [("EIE_SEDE1_modbus/1/holding/0", fmt2 (promedio env.ow))] := by
  have hsamples :
      pubs (List.flatten (List.replicate 10
        [Event.requestTemperatures, Event.delayMs DELAY_ENTRE_MUESTRAS])) = [] := by
    decide
  unfold leerTemperaturaOneWire
  rw [pubs_append, pubs_append, hsamples]
  cases h : env.pubOk "EIE_SEDE1_modbus/1/holding/0" <;> simp [pubs]

/-! ## C5 -/

/-- C5: every terminating main-loop iteration has the fixed shape:
liveness check, the (possibly empty) reconnect trace, the inbound message
drain, then distance, DHT and OneWire reads separated by the fixed
inter-step delays; the periodic readings go exactly to
EIE_SEDE1_http/numeric, EIE_SEDE{1,2}_http/{temp,humidity} and
EIE_SEDE1_modbus/1/holding/0. -/
theorem c5_loop_fixed_sequence_and_topics (env : LoopEnv) (fuel : Nat) (tr : List Event)
    (h : loopIter env fuel = some tr) :
    ∃ recon,
      tr = [Event.checkMQTTConnected env.mqttConnected] ++ recon ++ [Event.mqttLoop] ++
        leerDistanciaYPublicar env.sensors ++ [Event.delayMs DELAY_ENTRE_SENSORES] ++
        leerTemperaturaYHumedad env.sensors ++ [Event.delayMs DELAY_ENTRE_SENSORES] ++
        leerTemperaturaOneWire env.sensors ++ [Event.delayMs DELAY_ENTRE_SENSORES] ++
        [Event.delayMs DELAY_ENTRE_SENSORES] ∧
      (env.mqttConnected = true → recon = []) ∧
      pubTopics (leerDistanciaYPublicar env.sensors) = ["EIE_SEDE1_http/numeric"] ∧
      pubTopics (leerTemperaturaYHumedad env.sensors) =
        ["EIE_SEDE1_http/temp", "EIE_SEDE1_http/humidity",
         "EIE_SEDE2_http/temp", "EIE_SEDE2_http/humidity"] ∧
      pubTopics (leerTemperaturaOneWire env.sensors) = ["EIE_SEDE1_modbus/1/holding/0"] := by
  have ht1 : pubTopics (leerDistanciaYPublicar env.sensors) = ["EIE_SEDE1_http/numeric"] := by
    rw [pubTopics, pubs_leerDistancia]
    simp
  have ht2 : pubTopics (leerTemperaturaYHumedad env.sensors) =
      ["EIE_SEDE1_http/temp", "EIE_SEDE1_http/humidity",
       "EIE_SEDE2_http/temp", "EIE_SEDE2_http/humidity"] := by
    rw [pubTopics, pubs_leerTemperaturaYHumedad]
    simp
  have ht3 : pubTopics (leerTemperaturaOneWire env.sensors) =
      ["EIE_SEDE1_modbus/1/holding/0"] := by
    rw [pubTopics, pubs_leerTemperaturaOneWire]
    simp
  unfold loopIter at h
  cases hc : env.mqttConnected
  · rw [hc] at h
    simp only [Bool.false_eq_true, if_false] at h
    obtain ⟨recon, hrec, htr⟩ := Option.map_eq_some'.mp h
    exact ⟨recon, htr.symm, by simp, ht1, ht2, ht3⟩
  · rw [hc] at h
    simp only [if_true] at h
    rw [Option.map_some'] at h
    exact ⟨[], (Option.some.injEq _ _).mp h |>.symm, fun _ => rfl, ht1, ht2, ht3⟩

/-- Main-loop environment: session connected, all sensors valid. -/
def exLoopEnv : LoopEnv :=
  { mqttConnected := true, mqtt := exMQTTEnvFail2, sensors := exDistAllValid }

/-- Witness for C5 at a connected environment with concrete readings. -/
theorem c5_witness :
    pubTopics (leerTemperaturaYHumedad exLoopEnv.sensors) =
      ["EIE_SEDE1_http/temp", "EIE_SEDE1_http/humidity",
       "EIE_SEDE2_http/temp", "EIE_SEDE2_http/humidity"] ∧
    pubTopics (leerTemperaturaOneWire exLoopEnv.sensors) = ["EIE_SEDE1_modbus/1/holding/0"] := by
  obtain ⟨recon, -, -, -, h4, h5⟩ := c5_loop_fixed_sequence_and_topics exLoopEnv 0 _ (by rfl)
  exact ⟨h4, h5⟩

/-- Every event of the distance reader is neither a WiFi operation nor a
session connect attempt. -/
lemma dist_benign (s : SensorEnv) :
    ∀ e ∈ leerDistanciaYPublicar s, isWifiEvent e = false ∧ isConnectAttempt e = false := by
  intro e he
  unfold leerDistanciaYPublicar at he
  rcases List.mem_append.mp he with h12 | h3
  · rcases List.mem_append.mp h12 with h1 | h2
    · exact (by decide :
        ∀ x ∈ List.flatten (List.replicate 10 distSampleEvents),
          isWifiEvent x = false ∧ isConnectAttempt x = false) e h1
    · rcases List.mem_singleton.mp h2 with rfl
      exact ⟨rfl, rfl⟩
  · by_cases hp : s.pubOk "EIE_SEDE1_http/numeric" = true
    · rw [if_pos hp] at h3
      rcases List.mem_singleton.mp h3 with rfl
      exact ⟨rfl, rfl⟩
    · rw [if_neg hp] at h3
      rcases List.mem_singleton.mp h3 with rfl
      exact ⟨rfl, rfl⟩

/-- Every event of the DHT reader is neither a WiFi operation nor a
session connect attempt. -/
lemma dht_benign (s : SensorEnv) :
    ∀ e ∈ leerTemperaturaYHumedad s, isWifiEvent e = false ∧ isConnectAttempt e = false := by
  intro e he
  unfold leerTemperaturaYHumedad at he
  rcases List.mem_append.mp he with h1 | h2
  · exact (by decide :
      ∀ x ∈ List.flatten (List.replicate 10 [Event.delayMs DELAY_ENTRE_MUESTRAS]),
        isWifiEvent x = false ∧ isConnectAttempt x = false) e h1
  · simp only [List.mem_cons, List.not_mem_nil, or_false] at h2
    rcases h2 with rfl | rfl | rfl | rfl | rfl | rfl | rfl <;> exact ⟨rfl, rfl⟩

/-- Every event of the OneWire reader is neither a WiFi operation nor a
session connect attempt. -/
lemma ow_benign (s : SensorEnv) :
    ∀ e ∈ leerTemperaturaOneWire s, isWifiEvent e = false ∧ isConnectAttempt e = false := by
  intro e he
  unfold leerTemperaturaOneWire at he
  rcases List.mem_append.mp he with h12 | h3
  · rcases List.mem_append.mp h12 with h1 | h2
    · exact (by decide :
        ∀ x ∈ List.flatten (List.replicate 10
          [Event.requestTemperatures, Event.delayMs DELAY_ENTRE_MUESTRAS]),
          isWifiEvent x = false ∧ isConnectAttempt x = false) e h1
    · rcases List.mem_singleton.mp h2 with rfl
      exact ⟨rfl, rfl⟩
  · by_cases hp : s.pubOk "EIE_SEDE1_modbus/1/holding/0" = true
    · rw [if_pos hp] at h3
      rcases List.mem_singleton.mp h3 with rfl
      exact ⟨rfl, rfl⟩
    · rw [if_neg hp] at h3
      rcases List.mem_singleton.mp h3 with rfl
      exact ⟨rfl, rfl⟩

/-- No event of a success block is a WiFi operation, and it contains a
connect attempt. -/
lemma successEvents_noWifi (env : MQTTEnv) (k : Nat) :
    ∀ e ∈ successEvents env k, isWifiEvent e = false := by
  intro e he
  unfold successEvents at he
  rcases List.mem_append.mp he with h12 | h3
  · rcases List.mem_append.mp h12 with h1 | h2
    · simp only [List.mem_cons, List.not_mem_nil, or_false] at h1
      rcases h1 with rfl | rfl | rfl | rfl <;> rfl
    · by_cases hs : env.subOk = true
      · rw [if_pos hs] at h2
        rcases List.mem_singleton.mp h2 with rfl
        rfl
      · rw [if_neg hs] at h2
        exact absurd h2 (List.not_mem_nil e)
  · exact (by decide : ∀ x ∈ testPublishes, isWifiEvent x = false) e h3

/-- No event of a failure block is a WiFi operation. -/
lemma failEvents_noWifi (env : MQTTEnv) (k : Nat) :
    ∀ e ∈ failEvents env k, isWifiEvent e = false := by
  intro e he
  simp only [failEvents, List.mem_cons, List.not_mem_nil, or_false] at he
  rcases he with rfl | rfl | rfl | rfl <;> rfl

/-- The reconnect loop performs no WiFi operation but contains at least
one session connect attempt whenever it terminates. -/
lemma reconectarLoop_noWifi_hasAttempt (env : MQTTEnv) :
    ∀ (fuel k : Nat) (tr : List Event), reconectarLoop env fuel k = some tr →
      (∀ e ∈ tr, isWifiEvent e = false) ∧ ∃ e ∈ tr, isConnectAttempt e = true := by
  intro fuel
  induction fuel with
  | zero =>
    intro k tr h
    exact absurd h (by simp [reconectarLoop])
  | succ fuel ih =>
    intro k tr h
    by_cases hc : env.connectOk k = true
    · rw [reconectarLoop, if_pos hc, Option.some.injEq] at h
      subst h
      exact ⟨successEvents_noWifi env k,
        ⟨.connectAttempt k true, by simp [successEvents], rfl⟩⟩
    · rw [reconectarLoop, if_neg hc] at h
      obtain ⟨a, ha, htr⟩ := Option.map_eq_some'.mp h
      obtain ⟨hw, e0, he0, hat⟩ := ih (k + 1) a ha
      subst htr
      refine ⟨fun e he => ?_, ⟨e0, List.mem_append.mpr (Or.inr he0), hat⟩⟩
      rcases List.mem_append.mp he with h1 | h2
      · exact failEvents_noWifi env k e h1
      · exact hw e h2

/-! ## C7 -/

/-- C7: a terminating main-loop iteration polls only the MQTT session
state: its trace contains the MQTT liveness check, performs a session
connect attempt exactly when the session was down, and never contains a
WiFi status check or a WiFi association attempt — although such events do
occur in the setup-time `configurarWiFi` trace. -/
theorem c7_loop_never_rechecks_wifi (env : LoopEnv) (fuel : Nat) (tr : List Event)
    (h : loopIter env fuel = some tr) :
    (∀ e ∈ tr, isWifiEvent e = false) ∧
    ((∃ e ∈ tr, isConnectAttempt e = true) ↔ env.mqttConnected = false) ∧
    Event.checkMQTTConnected env.mqttConnected ∈ tr ∧
    (∃ (status : Nat → Bool) (fuel2 : Nat) (tr2 : List Event),
      configurarWiFi status fuel2 = some tr2 ∧ ∃ e ∈ tr2, isWifiEvent e = true) := by
  have hwifi : ∃ (status : Nat → Bool) (fuel2 : Nat) (tr2 : List Event),
      configurarWiFi status fuel2 = some tr2 ∧ ∃ e ∈ tr2, isWifiEvent e = true := by
    exact ⟨fun _ => true, 1, _, by rfl, ⟨.wifiBegin, by simp, rfl⟩⟩
  have hsplit : ∀ (c : Bool) (recon : List Event),
      (tr = [Event.checkMQTTConnected c] ++ recon ++ [Event.mqttLoop] ++
        leerDistanciaYPublicar env.sensors ++ [Event.delayMs DELAY_ENTRE_SENSORES] ++
        leerTemperaturaYHumedad env.sensors ++ [Event.delayMs DELAY_ENTRE_SENSORES] ++
        leerTemperaturaOneWire env.sensors ++ [Event.delayMs DELAY_ENTRE_SENSORES] ++
        [Event.delayMs DELAY_ENTRE_SENSORES]) →
      ∀ e ∈ tr, e ∈ recon ∨ (isWifiEvent e = false ∧ isConnectAttempt e = false) := by
    intro c recon htr e he
    rw [htr] at he
    rcases List.mem_append.mp he with h9 | h0
    rcases List.mem_append.mp h9 with h9 | h0
    rcases List.mem_append.mp h9 with h9 | h0
    rcases List.mem_append.mp h9 with h9 | h0
    rcases List.mem_append.mp h9 with h9 | h0
    rcases List.mem_append.mp h9 with h9 | h0
    rcases List.mem_append.mp h9 with h9 | h0
    rcases List.mem_append.mp h9 with h9 | h0
    rcases List.mem_append.mp h9 with h9 | h0
    · rcases List.mem_singleton.mp h9 with rfl
      exact Or.inr ⟨rfl, rfl⟩
    · exact Or.inl h0
    · rcases List.mem_singleton.mp h0 with rfl
      exact Or.inr ⟨rfl, rfl⟩
    · exact Or.inr (dist_benign env.sensors e h0)
    · rcases List.mem_singleton.mp h0 with rfl
      exact Or.inr ⟨rfl, rfl⟩
    · exact Or.inr (dht_benign env.sensors e h0)
    · rcases List.mem_singleton.mp h0 with rfl
      exact Or.inr ⟨rfl, rfl⟩
    · exact Or.inr (ow_benign env.sensors e h0)
    · rcases List.mem_singleton.mp h0 with rfl
      exact Or.inr ⟨rfl, rfl⟩
    · rcases List.mem_singleton.mp h0 with rfl
      exact Or.inr ⟨rfl, rfl⟩
  unfold loopIter at h
  cases hc : env.mqttConnected
  · rw [hc] at h
    simp only [Bool.false_eq_true, if_false] at h
    obtain ⟨a, ha, htr⟩ := Option.map_eq_some'.mp h
    unfold reconectarMQTT at ha
    obtain ⟨b, hb, hab⟩ := Option.map_eq_some'.mp ha
    obtain ⟨hbw, eb, heb, hba⟩ := reconectarLoop_noWifi_hasAttempt env.mqtt fuel 0 b hb
    have hrec : ∀ e ∈ a, isWifiEvent e = false ∧ isConnectAttempt e = false ∨
        e ∈ b := by
      intro e he
      rw [← hab] at he
      rcases List.mem_cons.mp he with rfl | h2
      · exact Or.inl ⟨rfl, rfl⟩
      · exact Or.inr h2
    have hs := hsplit false a htr.symm
    refine ⟨?_, ?_, ?_, hwifi⟩
    · intro e he
      rcases hs e he with h1 | h2
      · rcases hrec e h1 with ⟨hw, -⟩ | h2
        · exact hw
        · exact hbw e h2
      · exact h2.1
    · refine ⟨fun _ => rfl, fun _ => ?_⟩
      refine ⟨eb, ?_, hba⟩
      rw [htr.symm]
      refine List.mem_append.mpr (Or.inl ?_)
      refine List.mem_append.mpr (Or.inl ?_)
      refine List.mem_append.mpr (Or.inl ?_)
      refine List.mem_append.mpr (Or.inl ?_)
      refine List.mem_append.mpr (Or.inl ?_)
      refine List.mem_append.mpr (Or.inl ?_)
      refine List.mem_append.mpr (Or.inl ?_)
      refine List.mem_append.mpr (Or.inl ?_)
      refine List.mem_append.mpr (Or.inr ?_)
      rw [← hab]
      exact List.mem_cons.mpr (Or.inr heb)
    · rw [htr.symm]
      simp
  · rw [hc] at h
    simp only [if_true, Option.map_some', Option.some.injEq] at h
    have hs := hsplit true [] h.symm
    refine ⟨?_, ?_, ?_, hwifi⟩
    · intro e he
      rcases hs e he with h1 | h2
      · exact absurd h1 (List.not_mem_nil e)
      · exact h2.1
    · constructor
      · rintro ⟨e, he, hat⟩
        rcases hs e he with h1 | h2
        · exact absurd h1 (List.not_mem_nil e)
        · rw [h2.2] at hat
          exact absurd hat (by simp)
      · intro hfalse
        simp at hfalse
    · rw [h.symm]
      simp

/-- Witness for C7 at the connected example environment. -/
theorem c7_witness :
    ∃ tr, loopIter exLoopEnv 0 = some tr ∧
      (∀ e ∈ tr, isWifiEvent e = false) ∧
      ((∃ e ∈ tr, isConnectAttempt e = true) ↔ exLoopEnv.mqttConnected = false) := by
  obtain ⟨h1, h2, -⟩ := c7_loop_never_rechecks_wifi exLoopEnv 0 _ (by rfl)
  exact ⟨_, by rfl, h1, h2⟩

/-- Serial diagnostics of the distance reader: one line, chosen by the
publish result. -/
lemma serials_leerDistancia (env : SensorEnv) :
    serialsOf (leerDistanciaYPublicar env) =
      (if env.pubOk "EIE_SEDE1_http/numeric" then
        ["-> Distancia publicada: " ++ fmtF (distanciaPromedio env) ++ " cm"]
      else ["-> Error publicando distancia"]) := by
  have hsamples : serialsOf (List.flatten (List.replicate 10 distSampleEvents)) = [] := by
    decide
  unfold leerDistanciaYPublicar
  rw [serialsOf_append, serialsOf_append, hsamples]
  cases h : env.pubOk "EIE_SEDE1_http/numeric" <;> simp [serialsOf]

/-- Serial diagnostics of the OneWire reader: one line, chosen by the
publish result. -/
lemma serials_leerOneWire (env : SensorEnv) :
    serialsOf (leerTemperaturaOneWire env) =
      (if env.pubOk "EIE_SEDE1_modbus/1/holding/0" then
        ["-> Temperatura OneWire publicada: " ++ fmt2 (promedio env.ow) ++ " C"]
      else ["-> Error publicando temperatura OneWire"]) := by
  have hsamples : serialsOf (List.flatten (List.replicate 10
      [Event.requestTemperatures, Event.delayMs DELAY_ENTRE_MUESTRAS])) = [] := by
    decide
  unfold leerTemperaturaOneWire
  rw [serialsOf_append, serialsOf_append, hsamples]
  cases h : env.pubOk "EIE_SEDE1_modbus/1/holding/0" <;> simp [serialsOf]

/-- Like `exDistAllValid` but with every publish failing. -/
def exC8Fail : SensorEnv :=
  { dur := fun _ => some 100,
    hum1 := fun _ => some 50, temp1 := fun _ => some 20,
    hum2 := fun _ => some 50, temp2 := fun _ => some 20,
    ow := fun _ => some 21, pubOk := fun _ => false }

/-! ## C8 -/

/-- C8 counterexample: the four DHT publishes produce exactly the same
diagnostic lines whether every publish succeeds or every publish fails —
no line describes their success or failure — while the distance reader's
diagnostic line does depend on the outcome. -/
theorem c8_counterexample :
    pubs (leerTemperaturaYHumedad exC8Fail) ≠ [] ∧
    serialsOf (leerTemperaturaYHumedad exC8Fail) =
      serialsOf (leerTemperaturaYHumedad exDistAllValid) ∧
    serialsOf (leerDistanciaYPublicar exC8Fail) ≠
      serialsOf (leerDistanciaYPublicar exDistAllValid) := by
  have hAll : ∀ i : Fin 10, exDistAllValid.dur i ≠ none := by
    intro i
    simp [exDistAllValid]
  have hval : distanciaPromedio exDistAllValid = some (343 / 200) := by
    rw [distanciaPromedio_all_valid exDistAllValid hAll]
    norm_num [Fin.sum_univ_def, List.finRange, exDistAllValid]
  have hfmt : fmtF (distanciaPromedio exDistAllValid) = "1.72" := by
    rw [hval]
    show fmt2 (343 / 200) = "1.72"
    unfold fmt2
    norm_num [round_eq]
    decide
  refine ⟨?_, rfl, ?_⟩
  · rw [pubs_leerTemperaturaYHumedad]
    simp
  · rw [serials_leerDistancia exC8Fail, serials_leerDistancia exDistAllValid, hfmt]
    have h1 : exC8Fail.pubOk "EIE_SEDE1_http/numeric" = false := rfl
    have h2 : exDistAllValid.pubOk "EIE_SEDE1_http/numeric" = true := rfl
    rw [h1, h2]
    simp

/-- C8 amended: the distance and OneWire publishes return a boolean
result and write a diagnostic line that depends on it (success or error);
the four DHT publishes ignore the result and print the same unconditional
summary either way; in every reader each reading is published exactly
once — a failed publish is dropped and never retried. -/
theorem c8_publish_reported_not_retried (env : SensorEnv) :
    (env.pubOk "EIE_SEDE1_http/numeric" = true →
      serialsOf (leerDistanciaYPublicar env) =
        ["-> Distancia publicada: " ++ fmtF (distanciaPromedio env) ++ " cm"]) ∧
    (env.pubOk "EIE_SEDE1_http/numeric" = false →
      serialsOf (leerDistanciaYPublicar env) = ["-> Error publicando distancia"]) ∧
    (env.pubOk "EIE_SEDE1_modbus/1/holding/0" = true →
      serialsOf (leerTemperaturaOneWire env) =
        ["-> Temperatura OneWire publicada: " ++ fmt2 (promedio env.ow) ++ " C"]) ∧
    (env.pubOk "EIE_SEDE1_modbus/1/holding/0" = false →
      serialsOf (leerTemperaturaOneWire env) = ["-> Error publicando temperatura OneWire"]) ∧
    (∀ pubOk2 : String → Bool,
      serialsOf (leerTemperaturaYHumedad
        { dur := env.dur, hum1 := env.hum1, temp1 := env.temp1,
          hum2 := env.hum2, temp2 := env.temp2, ow := env.ow, pubOk := pubOk2 }) =
        serialsOf (leerTemperaturaYHumedad env)) ∧
    (pubs (leerDistanciaYPublicar env)).length = 1 ∧
    (pubs (leerTemperaturaYHumedad env)).length = 4 ∧
    (pubs (leerTemperaturaOneWire env)).length = 1 := by
  refine ⟨fun h => ?_, fun h => ?_, fun h => ?_, fun h => ?_, fun pubOk2 => rfl, ?_, ?_, ?_⟩
  · rw [serials_leerDistancia, if_pos h]
  · rw [serials_leerDistancia, h]
    simp
  · rw [serials_leerOneWire, if_pos h]
  · rw [serials_leerOneWire, h]
    simp
  · rw [pubs_leerDistancia]
    rfl
  · rw [pubs_leerTemperaturaYHumedad]
    rfl
  · rw [pubs_leerTemperaturaOneWire]
    rfl

/-- Witness for C8 at the all-failing publish environment. -/
theorem c8_witness :
    serialsOf (leerDistanciaYPublicar exC8Fail) = ["-> Error publicando distancia"] ∧
    serialsOf (leerTemperaturaOneWire exC8Fail) =
      ["-> Error publicando temperatura OneWire"] ∧
    (pubs (leerTemperaturaYHumedad exC8Fail)).length = 4 :=
  ⟨(c8_publish_reported_not_retried exC8Fail).2.1 rfl,
   (c8_publish_reported_not_retried exC8Fail).2.2.2.1 rfl,
   (c8_publish_reported_not_retried exC8Fail).2.2.2.2.2.2.1⟩

end ESP32
